import Mathlib

/-!
Shallow embedding of ai_news.py: a pipeline that fetches a BBC RSS feed,
resolves the first article with an extractable body, summarises it through a
chat-completion endpoint, and narrates the summary through a text-to-speech
endpoint.  Effects (HTTP requests, endpoint calls, playback) are modelled by
an explicit environment and an event trace.
-/

namespace AINews

/-- An RSS item of the feed, with the three child elements the code reads:
title, description and link. -/
structure Item where
  title : String
  description : String
  link : String
deriving DecidableEq, Repr

instance : Inhabited Item := ⟨⟨"", "", ""⟩⟩

/-- A parsed document, as the code observes it through BeautifulSoup:
the item elements that find_all yields, and the text of the designated
article element when find locates one (none when find returns None). -/
structure Doc where
  items : List Item
  articleText : Option String
deriving DecidableEq, Repr

/-- An HTTP request issued through requests.get, recording the url and the
timeout argument. -/
structure Request where
  url : String
  timeout : Nat
deriving DecidableEq, Repr

/-- An exception raised by requests.get: a network failure or a timeout.
requests raises these, never AttributeError. -/
inductive RequestError where
  | connectionError
  | timeoutError
deriving DecidableEq, Repr

/-- A Python exception that can surface in this pipeline. -/
inductive PyError where
  | attributeError
  | indexError
  | request (e : RequestError)
  | openAIError
deriving DecidableEq, Repr

/-- A role tag of a chat message. -/
inductive Role where
  | system
  | user
  | assistant
deriving DecidableEq, Repr

/-- A chat message: a role-tagged content string. -/
structure Message where
  role : Role
  content : String
deriving DecidableEq, Repr

/-- One returned completion choice; message_content embeds choice.message.content. -/
structure Choice where
  message_content : String
deriving DecidableEq, Repr

/-- The response of the chat-completion endpoint. -/
structure ChatResponse where
  choices : List Choice
deriving DecidableEq, Repr

/-- The outgoing chat-completion request, with the keyword arguments the code
passes to client.chat.completions.create. -/
structure ChatRequest where
  model : String
  messages : List Message
  temperature : ℚ
  n : Nat
deriving DecidableEq, Repr

/-- The external world: what each HTTP fetch returns, and what the two OpenAI
endpoints and the playback library do.  fetch can only fail with a requests
exception; the other calls fail with an endpoint error. -/
structure Env where
  fetch : String → Except RequestError Doc
  complete : ChatRequest → Except PyError ChatResponse
  speechCreate : String → Except PyError Unit
  play : String → Except PyError Unit

/-- The feed url that BBCNews.__init__ passes to News.__init__. -/
def feedUrl : String := "http://feeds.bbci.co.uk/news/rss.xml"

/-- News._get_soup: requests.get(url, timeout=10) followed by parsing.  Returns
the issued request together with the parsed document, or the propagated
requests exception. -/
def get_soup (env : Env) (url : String) : List Request × Except PyError Doc :=
  (⟨url, 10⟩ :: [],
    match env.fetch url with
    | .ok d => .ok d
    | .error e => .error (.request e))

/-- News._get_body: soup.find(text_class).get_text().  When find returns None
the get_text attribute access raises AttributeError. -/
def get_body (env : Env) (url : String) : List Request × Except PyError String :=
  match get_soup env url with
  | (tr, .error e) => (tr, .error e)
  | (tr, .ok d) =>
    match d.articleText with
    | none => (tr, .error .attributeError)
    | some s => (tr, .ok s)

/-- The while-loop of BBCNews.get_headlines, at the point where counter has
already advanced past the consumed prefix: remaining is articles.drop counter.
articles[counter] on an exhausted list raises IndexError (remaining = []);
a body extraction raising AttributeError advances the counter; any other
exception propagates out of the loop. -/
def resolveFrom (env : Env) (remaining : List Item) : List Request × Except PyError String :=
  match remaining with
  | [] => ([], .error .indexError)
  | a :: rest =>
    match get_body env a.link with
    | (tr, .ok body) => (tr, .ok body)
    | (tr, .error .attributeError) =>
      let res := resolveFrom env rest
      (tr ++ res.1, res.2)
    | (tr, .error e) => (tr, .error e)

/-- BBCNews.get_headlines: fetch and parse the feed, isolate the items, run
the resolution loop from counter 0, and return articles[0].title.text,
articles[0].description.text and the found body.  articles[0] on an empty
list raises IndexError (unreachable in practice, since the loop already
raises IndexError there). -/
def get_headlines (env : Env) : List Request × Except PyError (String × String × String) :=
  match get_soup env feedUrl with
  | (tr, .error e) => (tr, .error e)
  | (tr, .ok soup) =>
    let articles := soup.items
    match resolveFrom env articles with
    | (tr2, .error e) => (tr ++ tr2, .error e)
    | (tr2, .ok body) =>
      match articles with
      | [] => (tr ++ tr2, .error .indexError)
      | a0 :: _ => (tr ++ tr2, .ok (a0.title, a0.description, body))

/-- The terminal error of an exhausted resolution loop.  The source catches
only AttributeError, so running past the last article surfaces the uncaught
IndexError of articles[counter]; the spec names this terminal error
NoArticleFoundError. -/
def NoArticleFoundError : PyError := .indexError

/-- The fixed system instruction that AIChat.__init__ seeds the conversation
with (a Python triple-quoted string: the continuation lines keep their
sixteen spaces of indentation). -/
def systemInstruction : String :=
  "The user will input text taken from a BBC News article and you will summarise it in one to three sentences.\n                The article may contain biased language, so you should attempt to rephrase it to be more politically neutral.\n                You are delivering a daily news briefing to the user, so you should provide a summary of the article\x27s main points without mentioning the article directly."

/-- The state of an AIChat object: the fixed request parameters and the
mutable inputs list. -/
structure AIChat where
  model : String
  temperature : ℚ
  num_of_responses : Nat
  inputs : List Message
deriving DecidableEq, Repr

/-- AIChat.__init__: model gpt-3.5-turbo, temperature 0.5, one response,
and the inputs list seeded with the single system message. -/
def AIChat.init : AIChat :=
  { model := "gpt-3.5-turbo"
    temperature := 1 / 2
    num_of_responses := 1
    inputs := [⟨Role.system, systemInstruction⟩] }

/-- AIChat.add_input: self.inputs.append(inputs). -/
def AIChat.add_input (self : AIChat) (inputs : Message) : AIChat :=
  { self with inputs := self.inputs ++ [inputs] }

/-- The request AIChat.run_ai passes to client.chat.completions.create:
the stored model, messages, temperature and n. -/
def AIChat.request (self : AIChat) : ChatRequest :=
  { model := self.model
    messages := self.inputs
    temperature := self.temperature
    n := self.num_of_responses }

/-- AIChat.run_ai: sends the stored data to the completion endpoint and
returns the response; the object state is returned unchanged alongside it
(the method mutates nothing). -/
def AIChat.run_ai (self : AIChat) (env : Env) : AIChat × Except PyError ChatResponse :=
  (self, env.complete self.request)

/-- An AIChat state after a sequence of add_input calls. -/
def addAll (self : AIChat) (ms : List Message) : AIChat :=
  ms.foldl AIChat.add_input self

/-- Joining of pathlib paths, on paths embedded as strings. -/
def joinPath (dir base : String) : String := dir ++ "/" ++ base

/-- TTS.__init__: self.path = Path(__file__).parent / (filename ++ ".mp3"),
with scriptDir standing for the directory that holds the program file. -/
def ttsPath (scriptDir filename : String) : String :=
  joinPath scriptDir (filename ++ ".mp3")

/-- Path.name: the final component of a path, the text after the last slash. -/
def pathName (p : String) : String :=
  String.mk ((p.data.reverse.takeWhile (fun c => c != '/')).reverse)

/-- The argument TTS.play_audio hands to playsound: self.path.name. -/
def playArg (scriptDir filename : String) : String :=
  pathName (ttsPath scriptDir filename)

/-- Whether an embedded path is absolute: it starts with a slash. -/
def isAbsolutePath (p : String) : Bool :=
  match p.data with
  | [] => false
  | c :: _ => c == '/'

/-- Resolution of a playsound argument by the operating system: a relative
name is looked up in the current working directory. -/
def resolveAgainstCwd (cwd p : String) : String :=
  if isAbsolutePath p then p else joinPath cwd p

/-- An observable action of one pipeline run. -/
inductive Event where
  | webRequest (r : Request)
  | chatCompletionCreate (req : ChatRequest)
  | printLine (s : String)
  | speechCreate (model voice text : String)
  | streamToFile (path : String)
  | sleepHalfSecond
  | playsoundCall (file : String)
deriving DecidableEq, Repr

/-- Whether an event is an HTTP request of the news scraper. -/
def Event.isWebRequest : Event → Bool
  | .webRequest _ => true
  | _ => false

/-- Whether an event is an attempt to play audio. -/
def Event.isPlaysoundCall : Event → Bool
  | .playsoundCall _ => true
  | _ => false

/-- Whether an Except value is a success. -/
def isOkResult {ε α : Type} : Except ε α → Bool
  | .ok _ => true
  | .error _ => false

/-- The conversation main builds: AIChat(client) followed by the three
add_input calls with the labelled title, description and body. -/
def mainConversation (title description body : String) : AIChat :=
  ((AIChat.init.add_input ⟨Role.user, "Article Title: " ++ title⟩).add_input
      ⟨Role.user, "Article Description: " ++ description⟩).add_input
    ⟨Role.user, "Article Body: " ++ body⟩

/-- main: response.choices[0].message.content; an empty choices list makes
the subscript raise IndexError. -/
def summaryOf (response : ChatResponse) : Except PyError String :=
  match response.choices with
  | [] => .error .indexError
  | c0 :: _ => .ok c0.message_content

/-- The tail of main once the summary string is in hand:
tts.create_audio(text) sends the text to the speech endpoint with model
tts-1 and voice alloy and streams the artifact to self.path, then main
sleeps half a second and tts.play_audio() hands self.path.name to
playsound.  A synthesis failure propagates before any playback attempt. -/
def speakPhase (env : Env) (scriptDir text : String) : List Event × Except PyError Unit :=
  match env.speechCreate text with
  | .error e => ([.speechCreate "tts-1" "alloy" text], .error e)
  | .ok _ =>
    ([.speechCreate "tts-1" "alloy" text,
      .streamToFile (ttsPath scriptDir "news"),
      .sleepHalfSecond,
      .playsoundCall (playArg scriptDir "news")],
     env.play (playArg scriptDir "news"))

/-- main: get_headlines, then the conversation and run_ai, then printing
every returned choice, then the text-to-speech tail on the first choice.
Any uncaught exception aborts the run at that point. -/
def mainRun (env : Env) (scriptDir : String) : List Event × Except PyError Unit :=
  match get_headlines env with
  | (tr, .error e) => (tr.map Event.webRequest, .error e)
  | (tr, .ok (title, description, body)) =>
    let chat := mainConversation title description body
    let webEvents := tr.map Event.webRequest
    match chat.run_ai env with
    | (_, .error e) => (webEvents ++ [.chatCompletionCreate chat.request], .error e)
    | (_, .ok response) =>
      let printed := response.choices.map (fun c => Event.printLine c.message_content)
      let evs := webEvents ++ [.chatCompletionCreate chat.request] ++ printed
      match summaryOf response with
      | .error e => (evs, .error e)
      | .ok summary =>
        let res := speakPhase env scriptDir summary
        (evs ++ res.1, res.2)

deriving instance DecidableEq for Except

/-- An item of the concrete test feeds whose page has no article element. -/
def itemA : Item := ⟨"Headline A", "Desc A", "http://x/a"⟩

/-- An item of the concrete test feeds whose page carries a body. -/
def itemB : Item := ⟨"Headline B", "Desc B", "http://x/b"⟩

/-- A concrete world: the feed lists itemA then itemB, the page of itemA has
no article element, the page of itemB holds the body, and every endpoint
call fails (the run never reaches one in the scenarios proved on it). -/
def envSecondWins : Env where
  fetch := fun u =>
    if u = feedUrl then .ok ⟨[itemA, itemB], none⟩
    else if u = itemB.link then .ok ⟨[], some "Body text B"⟩
    else .ok ⟨[], none⟩
  complete := fun _ => .error .openAIError
  speechCreate := fun _ => .error .openAIError
  play := fun _ => .error .openAIError

/-- A concrete world: the feed lists itemA then itemB and neither page has
an article element. -/
def envAllBodyless : Env where
  fetch := fun u =>
    if u = feedUrl then .ok ⟨[itemA, itemB], none⟩
    else .ok ⟨[], none⟩
  complete := fun _ => .error .openAIError
  speechCreate := fun _ => .error .openAIError
  play := fun _ => .error .openAIError

section Lemmas

/-- When every item of the list makes body extraction raise AttributeError,
the resolution loop consumes the whole list and ends with the IndexError of
the out-of-range subscript. -/
theorem resolveFrom_all_skip (env : Env) (l : List Item)
    (h : ∀ x ∈ l, (get_body env x.link).2 = .error .attributeError) :
    (resolveFrom env l).2 = .error .indexError := by
  induction l with
  | nil => simp [resolveFrom]
  | cons a rest ih =>
    have ha := h a (by simp)
    rcases hgb : get_body env a.link with ⟨tr, r⟩
    rw [hgb] at ha
    simp at ha
    subst ha
    simp only [resolveFrom, hgb]
    exact ih (fun x hx => h x (by simp [hx]))

/-- When every item of a prefix makes body extraction raise AttributeError
and the next item yields a body, the resolution loop returns that body. -/
theorem resolveFrom_first_hit (env : Env) (pre : List Item) (a : Item)
    (post : List Item) (b : String)
    (hskip : ∀ x ∈ pre, (get_body env x.link).2 = .error .attributeError)
    (hbody : (get_body env a.link).2 = .ok b) :
    (resolveFrom env (pre ++ a :: post)).2 = .ok b := by
  induction pre with
  | nil =>
    rcases hgb : get_body env a.link with ⟨tr, r⟩
    rw [hgb] at hbody
    simp at hbody
    subst hbody
    simp [resolveFrom, hgb]
  | cons x pre' ih =>
    have hx := hskip x (by simp)
    rcases hgx : get_body env x.link with ⟨tr, r⟩
    rw [hgx] at hx
    simp at hx
    subst hx
    simp only [List.cons_append, resolveFrom, hgx]
    exact ih (fun y hy => hskip y (by simp [hy]))

/-- The trace of one get_body call is the single request with timeout 10. -/
theorem get_body_fst (env : Env) (url : String) :
    (get_body env url).1 = [⟨url, 10⟩] := by
  rcases hf : env.fetch url with e | d
  · simp [get_body, get_soup, hf]
  · rcases hat : d.articleText with _ | s <;> simp [get_body, get_soup, hf, hat]

/-- Every request the resolution loop issues carries the timeout 10. -/
theorem resolveFrom_timeout (env : Env) (l : List Item) (r : Request)
    (hr : r ∈ (resolveFrom env l).1) : r.timeout = 10 := by
  induction l with
  | nil => simp [resolveFrom] at hr
  | cons a rest ih =>
    rcases hgb : get_body env a.link with ⟨tr, res⟩
    have htr0 := get_body_fst env a.link
    rw [hgb] at htr0
    simp only at htr0
    have htr : ∀ q ∈ tr, q.timeout = 10 := by
      intro q hq
      rw [htr0] at hq
      simp at hq
      subst hq
      rfl
    cases res with
    | ok body =>
      simp only [resolveFrom, hgb] at hr
      exact htr r hr
    | error e =>
      cases e with
      | attributeError =>
        simp only [resolveFrom, hgb, List.mem_append] at hr
        rcases hr with hr | hr
        · exact htr r hr
        · exact ih hr
      | indexError =>
        simp only [resolveFrom, hgb] at hr
        exact htr r hr
      | request e2 =>
        simp only [resolveFrom, hgb] at hr
        exact htr r hr
      | openAIError =>
        simp only [resolveFrom, hgb] at hr
        exact htr r hr

/-- addAll appends the added messages after the existing inputs. -/
theorem addAll_inputs (ms : List Message) (c : AIChat) :
    (addAll c ms).inputs = c.inputs ++ ms := by
  induction ms generalizing c with
  | nil => simp [addAll]
  | cons m rest ih =>
    simp [addAll, List.foldl_cons] at ih ⊢
    rw [ih (c.add_input m)]
    simp [AIChat.add_input]

end Lemmas

/-- C1: when the pages of the first k-1 references yield no extractable body
(find returns None, so get_text raises AttributeError) and the page of
reference k yields a non-empty body, get_headlines returns the title and
description of the FIRST reference paired with the body extracted from
reference k.  Here pre lists references 1..k-1 and a is reference k. -/
theorem C1_first_fields_with_winning_body (env : Env) (fd : Doc)
    (pre : List Item) (a : Item) (post : List Item) (b : String)
    (hfeed : env.fetch feedUrl = .ok fd)
    (hitems : fd.items = pre ++ a :: post)
    (hskip : ∀ x ∈ pre, (get_body env x.link).2 = .error .attributeError)
    (hbody : (get_body env a.link).2 = .ok b)
    (hnonempty : b ≠ "") :
    (get_headlines env).2 =
      .ok ((pre ++ a :: post).headI.title, (pre ++ a :: post).headI.description, b) := by
  have hres := resolveFrom_first_hit env pre a post b hskip hbody
  rcases hrf : resolveFrom env (pre ++ a :: post) with ⟨tr2, r2⟩
  rw [hrf] at hres
  simp at hres
  subst hres
  cases pre with
  | nil =>
    simp only [List.nil_append] at hrf ⊢
    simp [get_headlines, get_soup, hfeed, hitems, hrf, List.headI]
  | cons x pre' =>
    simp only [List.cons_append] at hrf ⊢
    simp [get_headlines, get_soup, hfeed, hitems, hrf, List.headI]

/-- C2: when no reference of the feed yields an extractable body, resolution
terminates (resolveFrom is a total structurally recursive function) and
get_headlines fails with the terminal error the spec calls
NoArticleFoundError. -/
theorem C2_exhausted_feed_fails (env : Env) (fd : Doc)
    (hfeed : env.fetch feedUrl = .ok fd)
    (hall : ∀ x ∈ fd.items, (get_body env x.link).2 = .error .attributeError) :
    (get_headlines env).2 = .error NoArticleFoundError := by
  have hres := resolveFrom_all_skip env fd.items hall
  rcases hrf : resolveFrom env fd.items with ⟨tr2, r2⟩
  rw [hrf] at hres
  simp at hres
  subst hres
  simp [get_headlines, get_soup, hfeed, hrf, NoArticleFoundError]

/-- Witness for C1: in the concrete world where the first page is bodyless
and the second page holds "Body text B", get_headlines pairs the first
item's title and description with the second item's body. -/
theorem C1_witness :
    (get_headlines envSecondWins).2 = .ok (itemA.title, itemA.description, "Body text B") :=
  C1_first_fields_with_winning_body envSecondWins ⟨[itemA, itemB], none⟩
    [itemA] itemB [] "Body text B" (by decide) rfl (by decide) (by decide) (by decide)

/-- Witness for C2: in the concrete world where no page has an article
element, get_headlines fails with the terminal error. -/
theorem C2_witness : (get_headlines envAllBodyless).2 = .error NoArticleFoundError :=
  C2_exhausted_feed_fails envAllBodyless ⟨[itemA, itemB], none⟩ (by decide) (by decide)

/-- C3: the conversation main builds and sends is exactly one system turn
holding the fixed instruction followed by exactly three user turns holding
the labelled title, description and body, in that order, for every choice
of the three strings (empty ones included); each field is carried verbatim
after its fixed label. -/
theorem C3_conversation_shape (t d b : String) :
    (mainConversation t d b).inputs =
      [⟨Role.system, systemInstruction⟩,
       ⟨Role.user, "Article Title: " ++ t⟩,
       ⟨Role.user, "Article Description: " ++ d⟩,
       ⟨Role.user, "Article Body: " ++ b⟩] ∧
    (mainConversation t d b).inputs.map Message.role =
      [Role.system, Role.user, Role.user, Role.user] :=
  ⟨rfl, rfl⟩

/-- C4: when the feed parses but no page has an extractable body, the whole
run aborts with the terminal error and its trace holds only the scraper's
HTTP requests: the completion endpoint, the speech endpoint and playback
are never reached. -/
theorem C4_abort_reaches_no_summarizer_no_tts (env : Env) (fd : Doc) (scriptDir : String)
    (hfeed : env.fetch feedUrl = .ok fd)
    (hall : ∀ x ∈ fd.items, (get_body env x.link).2 = .error .attributeError) :
    (mainRun env scriptDir).2 = .error NoArticleFoundError ∧
    ∀ ev ∈ (mainRun env scriptDir).1, ev.isWebRequest = true := by
  have hres := resolveFrom_all_skip env fd.items hall
  rcases hrf : resolveFrom env fd.items with ⟨tr2, r2⟩
  rw [hrf] at hres
  simp at hres
  subst hres
  have hgh : get_headlines env = (⟨feedUrl, 10⟩ :: tr2, .error .indexError) := by
    simp [get_headlines, get_soup, hfeed, hrf]
  constructor
  · simp [mainRun, hgh, NoArticleFoundError]
  · intro ev hev
    simp only [mainRun, hgh, List.mem_map] at hev
    obtain ⟨q, hq, rfl⟩ := hev
    rfl

/-- Witness for C4: the end-to-end failure scenario with a two-item feed and
no extractable body anywhere. -/
theorem C4_witness :
    (mainRun envAllBodyless "/opt/app").2 = .error NoArticleFoundError ∧
    ∀ ev ∈ (mainRun envAllBodyless "/opt/app").1, ev.isWebRequest = true :=
  C4_abort_reaches_no_summarizer_no_tts envAllBodyless ⟨[itemA, itemB], none⟩
    "/opt/app" (by decide) (by decide)

/-- C5: in the text-to-speech tail of main, the number of playback attempts
is one exactly when synthesis of the summary succeeded and zero when the
speech endpoint failed (the failure propagates before play_audio runs). -/
theorem C5_playback_once_iff_synthesis_ok (env : Env) (scriptDir s : String) :
    ((speakPhase env scriptDir s).1.filter Event.isPlaysoundCall).length =
      if isOkResult (env.speechCreate s) then 1 else 0 := by
  rcases hs : env.speechCreate s with e | u <;>
    simp [speakPhase, hs, isOkResult, Event.isPlaysoundCall]

/-- C6: create_audio writes the artifact to the fixed path
Path(__file__).parent / news.mp3, but play_audio hands playsound only
self.path.name, which the system resolves against the current working
directory: with program directory /opt/app and working directory /home/user
the played path differs from the written path, against the play_audio
docstring (Plays the audio file saved at the path). -/
theorem C6_played_path_differs_from_written_path :
    ttsPath "/opt/app" "news" = "/opt/app/news.mp3" ∧
    playArg "/opt/app" "news" = "news.mp3" ∧
    resolveAgainstCwd "/home/user" (playArg "/opt/app" "news") = "/home/user/news.mp3" ∧
    resolveAgainstCwd "/home/user" (playArg "/opt/app" "news") ≠ ttsPath "/opt/app" "news" := by
  refine ⟨rfl, by decide, by decide, by decide⟩

/-- C7: the outgoing completion request always carries temperature 0.5 and
asks for exactly one completion, whatever the article fields are, and the
summary main hands to the speech synthesizer is the text of the first
returned choice. -/
theorem C7_fixed_sampling_and_first_choice (t d b : String) (c0 : Choice) (rest : List Choice) :
    (mainConversation t d b).request.temperature = 0.5 ∧
    (mainConversation t d b).request.n = 1 ∧
    summaryOf ⟨c0 :: rest⟩ = .ok c0.message_content := by
  refine ⟨?_, rfl, rfl⟩
  norm_num [AIChat.request, mainConversation, AIChat.add_input, AIChat.init]

/-- C8: every HTTP request the scraper issues (the feed fetch and every
article-page fetch of the resolution loop) carries the timeout 10. -/
theorem C8_every_request_has_timeout_ten (env : Env) (r : Request)
    (hr : r ∈ (get_headlines env).1) : r.timeout = 10 := by
  rcases hf : env.fetch feedUrl with e | soup
  · simp [get_headlines, get_soup, hf] at hr
    subst hr
    rfl
  · rcases hrf : resolveFrom env soup.items with ⟨tr2, res⟩
    have htr2 : ∀ q ∈ tr2, q.timeout = 10 := by
      intro q hq
      refine resolveFrom_timeout env soup.items q ?_
      rw [hrf]
      exact hq
    cases res with
    | error e2 =>
      simp [get_headlines, get_soup, hf, hrf] at hr
      rcases hr with hr | hr
      · subst hr; rfl
      · exact htr2 r hr
    | ok body =>
      rcases hit : soup.items with _ | ⟨a0, tl⟩
      · rw [hit] at hrf
        simp [resolveFrom] at hrf
      · rw [hit] at hrf
        simp [get_headlines, get_soup, hf, hit, hrf] at hr
        rcases hr with hr | hr
        · subst hr; rfl
        · exact htr2 r hr

/-- Witness for C8: the feed request of a concrete run carries timeout 10. -/
theorem C8_witness : (Request.mk feedUrl 10).timeout = 10 :=
  C8_every_request_has_timeout_ten envAllBodyless ⟨feedUrl, 10⟩ (by decide)

/-- C9: one step of the resolution loop at the current reference.  A requests
exception (network error or timeout) while fetching the page aborts the loop
at once with that error, no further reference being tried (the trace holds
only this one request); a fetched page without the designated article
element, the AttributeError case, is the single case that advances to the
next reference; a present article element ends the loop with its text. -/
theorem C9_skip_only_on_attribute_error (env : Env) (a : Item) (rest : List Item) :
    (∀ e : RequestError, env.fetch a.link = .error e →
        resolveFrom env (a :: rest) = ([⟨a.link, 10⟩], .error (.request e))) ∧
    (∀ d : Doc, env.fetch a.link = .ok d → d.articleText = none →
        resolveFrom env (a :: rest) =
          (⟨a.link, 10⟩ :: (resolveFrom env rest).1, (resolveFrom env rest).2)) ∧
    (∀ (d : Doc) (s : String), env.fetch a.link = .ok d → d.articleText = some s →
        resolveFrom env (a :: rest) = ([⟨a.link, 10⟩], .ok s)) := by
  refine ⟨?_, ?_, ?_⟩
  · intro e hf
    simp [resolveFrom, get_body, get_soup, hf]
  · intro d hf hat
    simp [resolveFrom, get_body, get_soup, hf, hat]
  · intro d s hf hat
    simp [resolveFrom, get_body, get_soup, hf, hat]

/-- C10: the conversation after any sequence of add_input calls is the seed
system message followed by exactly the added messages in order: its length
is one more than the number of calls, its first element stays the fixed
system instruction, one further add_input appends exactly one message at
the end leaving the earlier ones unchanged, and run_ai leaves the whole
object untouched. -/
theorem C10_conversation_append_invariants (ms : List Message) (m : Message) (env : Env) :
    (addAll AIChat.init ms).inputs = Message.mk Role.system systemInstruction :: ms ∧
    (addAll AIChat.init ms).inputs.length = 1 + ms.length ∧
    (addAll AIChat.init ms).inputs.head? = some (Message.mk Role.system systemInstruction) ∧
    ((addAll AIChat.init ms).add_input m).inputs = (addAll AIChat.init ms).inputs ++ [m] ∧
    ((addAll AIChat.init ms).run_ai env).1 = addAll AIChat.init ms := by
  have h1 : (addAll AIChat.init ms).inputs = Message.mk Role.system systemInstruction :: ms := by
    rw [addAll_inputs]
    rfl
  refine ⟨h1, ?_, ?_, rfl, rfl⟩
  · rw [h1]
    simp [Nat.add_comm]
  · rw [h1]
    rfl

end AINews
